import Mathlib

/-!
Verification development for `scbw/docker_utils.py`, the multi-container
StarCraft match orchestrator.  Every definition below is a shallow embedding
of the corresponding Python code in `src/scbw/docker_utils.py`; line numbers
in the doc comments refer to that file.  External effects (the docker control
plane, the filesystem, the clock) are modelled by explicit environment
records, and the side effects a run performs are collected into an `Action`
trace so that cleanup ordering can be stated and proved.
-/

/-! ## Constants (docker_utils.py lines 30-50) -/

def DOCKER_STARCRAFT_NETWORK : String := "sc_net"

def APP_DIR : String := "/app"

def LOG_DIR : String := APP_DIR ++ "/logs"

def SC_DIR : String := APP_DIR ++ "/sc"

def BOT_DIR : String := APP_DIR ++ "/bot"

def MAP_DIR : String := SC_DIR ++ "/maps"

def BWAPI_DATA_DIR : String := SC_DIR ++ "/bwapi-data"

def BWAPI_DATA_BWTA_DIR : String := BWAPI_DATA_DIR ++ "/BWTA"

def BWAPI_DATA_BWTA2_DIR : String := BWAPI_DATA_DIR ++ "/BWTA2"

def BOT_DATA_WRITE_DIR : String := BWAPI_DATA_DIR ++ "/write"

/-- Line 49: the sentinel exit code reserved to mean "realtime timed out". -/
def EXIT_CODE_REALTIME_OUTED : Int := 2

/-- Line 50: the lingering-single-container threshold, in seconds. -/
def MAX_TIME_RUNNING_SINGLE_CONTAINER : Nat := 20

/-! ## MountPathNormalizer: `xoscmounts` (lines 189-197)

The Python body is three `re.sub` calls applied in order:
```
host_mount = re.sub(r"^([a-zA-Z])\:", lambda pat: pat.group(1).lower(), host_mount)
host_mount = re.sub(r"^([a-z])", "//\\1", host_mount)
host_mount = re.sub(r"\\", "/", host_mount)
```
We embed strings as `List Char`.  The character classes `[a-z]` / `[A-Z]`
are the ASCII ranges 97-122 / 65-90, and `str.lower` on a `[a-zA-Z]` match
adds 32 to an upper-case code point and is the identity otherwise. -/

def isAsciiLower (c : Char) : Bool := 97 ≤ c.toNat && c.toNat ≤ 122

def isAsciiUpper (c : Char) : Bool := 65 ≤ c.toNat && c.toNat ≤ 90

def isAsciiAlpha (c : Char) : Bool := isAsciiLower c || isAsciiUpper c

/-- `str.lower()` applied to the single character matched by `[a-zA-Z]`. -/
def lowerChar (c : Char) : Char :=
  if isAsciiUpper c then Char.ofNat (c.toNat + 32) else c

/-- First substitution: `re.sub(r"^([a-zA-Z])\:", lambda pat: pat.group(1).lower(), s)`.
The regex consumes the leading letter and the colon and re-emits only the
lower-cased letter (the replacement is just `group(1).lower()`). -/
def subDriveColon : List Char → List Char
  | c :: ':' :: rest => if isAsciiAlpha c then lowerChar c :: rest else c :: ':' :: rest
  | s => s

/-- Second substitution: `re.sub(r"^([a-z])", "//\\1", s)` — a leading ASCII
lower-case letter is prefixed with `//`. -/
def subLeadingLower : List Char → List Char
  | c :: rest => if isAsciiLower c then '/' :: '/' :: c :: rest else c :: rest
  | [] => []

/-- The character map of `re.sub(r"\\", "/", s)`. -/
def backslashToSlash (c : Char) : Char := if c = '\\' then '/' else c

/-- Third substitution: every backslash becomes a forward slash. -/
def subBackslashes (s : List Char) : List Char := s.map backslashToSlash

/-- `xoscmounts` (lines 189-197): the three substitutions applied in order. -/
def xoscmounts (s : List Char) : List Char :=
  subBackslashes (subLeadingLower (subDriveColon s))

/-- `xoscmounts` on `String`, used when assembling the docker command line. -/
def xoscmountsStr (s : String) : String := String.mk (xoscmounts s.data)

/-! ### Character-level helper lemmas -/

theorem toNat_ofNat_of_lt (n : Nat) (h : n < 55296) : (Char.ofNat n).toNat = n := by
  unfold Char.ofNat
  rw [dif_pos (Or.inl h)]
  simp [Char.ofNatAux, Char.toNat, UInt32.toNat, UInt32.ofNatTruncate, UInt32.ofNat]

theorem isAsciiLower_lowerChar (c : Char) (h : isAsciiAlpha c = true) :
    isAsciiLower (lowerChar c) = true := by
  unfold isAsciiAlpha isAsciiLower isAsciiUpper at *
  unfold lowerChar isAsciiUpper
  by_cases hu : (65 ≤ c.toNat && c.toNat ≤ 90) = true
  · rw [if_pos hu]
    simp only [Bool.and_eq_true, decide_eq_true_eq] at hu ⊢
    rw [toNat_ofNat_of_lt (c.toNat + 32) (by omega)]
    omega
  · rw [if_neg hu]
    simp only [Bool.or_eq_true, Bool.and_eq_true, decide_eq_true_eq] at h hu ⊢
    omega

theorem ne_backslash_of_isAsciiLower (c : Char) (h : isAsciiLower c = true) :
    c ≠ '\\' := by
  intro hc
  subst hc
  simp [isAsciiLower] at h

theorem backslashToSlash_eq_self (c : Char) (h : c ≠ '\\') :
    backslashToSlash c = c := by
  unfold backslashToSlash
  rw [if_neg h]

theorem backslashToSlash_idem (c : Char) :
    backslashToSlash (backslashToSlash c) = backslashToSlash c := by
  by_cases h : c = '\\'
  · subst h; rfl
  · rw [backslashToSlash_eq_self c h, backslashToSlash_eq_self c h]

theorem subBackslashes_idem (s : List Char) :
    subBackslashes (subBackslashes s) = subBackslashes s := by
  unfold subBackslashes
  rw [List.map_map]
  apply List.map_congr_left
  intro c _
  exact backslashToSlash_idem c

theorem isAsciiAlpha_of_isAsciiLower (c : Char) (h : isAsciiLower c = true) :
    isAsciiAlpha c = true := by
  unfold isAsciiAlpha
  rw [h, Bool.true_or]

theorem subDriveColon_of_ne_colon (c1 c2 : Char) (rest : List Char) (h : c2 ≠ ':') :
    subDriveColon (c1 :: c2 :: rest) = c1 :: c2 :: rest := by
  unfold subDriveColon
  split
  · rename_i c r heq
    injection heq with h1 h2
    injection h2 with h2 h3
    exact absurd h2 h
  · rfl

theorem backslashToSlash_ne_colon (c : Char) (h : c ≠ ':') :
    backslashToSlash c ≠ ':' := by
  by_cases hb : c = '\\'
  · subst hb; decide
  · rw [backslashToSlash_eq_self c hb]; exact h

theorem isAsciiLower_backslashToSlash_eq_false (c : Char) (h : isAsciiLower c = false) :
    isAsciiLower (backslashToSlash c) = false := by
  by_cases hb : c = '\\'
  · subst hb; decide
  · rw [backslashToSlash_eq_self c hb]; exact h

theorem isAsciiAlpha_backslashToSlash_eq_false (c : Char) (h : isAsciiAlpha c = false) :
    isAsciiAlpha (backslashToSlash c) = false := by
  by_cases hb : c = '\\'
  · subst hb; decide
  · rw [backslashToSlash_eq_self c hb]; exact h

theorem bool_ne_true (b : Bool) (h : b = false) : ¬ b = true := by
  rw [h]
  exact Bool.false_ne_true

theorem subDriveColon_alpha (c : Char) (rest : List Char) (h : isAsciiAlpha c = true) :
    subDriveColon (c :: ':' :: rest) = lowerChar c :: rest := by
  show (if isAsciiAlpha c = true then lowerChar c :: rest else c :: ':' :: rest) = _
  rw [if_pos h]

theorem subDriveColon_not_alpha (c : Char) (rest : List Char) (h : isAsciiAlpha c = false) :
    subDriveColon (c :: ':' :: rest) = c :: ':' :: rest := by
  show (if isAsciiAlpha c = true then lowerChar c :: rest else c :: ':' :: rest) = _
  rw [if_neg (bool_ne_true _ h)]

theorem subLeadingLower_lower (c : Char) (rest : List Char) (h : isAsciiLower c = true) :
    subLeadingLower (c :: rest) = '/' :: '/' :: c :: rest := by
  show (if isAsciiLower c = true then '/' :: '/' :: c :: rest else c :: rest) = _
  rw [if_pos h]

theorem subLeadingLower_not_lower (c : Char) (rest : List Char) (h : isAsciiLower c = false) :
    subLeadingLower (c :: rest) = c :: rest := by
  show (if isAsciiLower c = true then '/' :: '/' :: c :: rest else c :: rest) = _
  rw [if_neg (bool_ne_true _ h)]

theorem not_lower_of_not_alpha (c : Char) (h : isAsciiAlpha c = false) :
    isAsciiLower c = false := by
  rcases hl : isAsciiLower c
  · rfl
  · exact absurd ((isAsciiAlpha_of_isAsciiLower c hl).symm.trans h).symm Bool.false_ne_true

theorem xoscmounts_fixes (l : List Char) :
    subDriveColon (xoscmounts l) = xoscmounts l ∧
    subLeadingLower (xoscmounts l) = xoscmounts l := by
  rcases l with _ | ⟨c1, _ | ⟨c2, rest⟩⟩
  · exact ⟨rfl, rfl⟩
  · unfold xoscmounts
    by_cases h : isAsciiLower c1 = true
    · have hne := ne_backslash_of_isAsciiLower c1 h
      rw [show subDriveColon [c1] = [c1] from rfl, subLeadingLower_lower c1 [] h]
      simp only [subBackslashes, List.map_cons, List.map_nil,
        backslashToSlash_eq_self c1 hne]
      exact ⟨rfl, rfl⟩
    · have hnl : isAsciiLower c1 = false := Bool.of_not_eq_true h
      have hbl := isAsciiLower_backslashToSlash_eq_false c1 hnl
      rw [show subDriveColon [c1] = [c1] from rfl, subLeadingLower_not_lower c1 [] hnl]
      simp only [subBackslashes, List.map_cons, List.map_nil]
      exact ⟨rfl, subLeadingLower_not_lower _ _ hbl⟩
  · by_cases hc2 : c2 = ':'
    · subst hc2
      by_cases ha : isAsciiAlpha c1 = true
      · have hlow := isAsciiLower_lowerChar c1 ha
        have hne := ne_backslash_of_isAsciiLower _ hlow
        unfold xoscmounts
        rw [subDriveColon_alpha c1 rest ha, subLeadingLower_lower _ _ hlow]
        simp only [subBackslashes, List.map_cons, backslashToSlash_eq_self _ hne]
        exact ⟨rfl, rfl⟩
      · have hna : isAsciiAlpha c1 = false := Bool.of_not_eq_true ha
        have hnl := not_lower_of_not_alpha c1 hna
        have hbc : backslashToSlash ':' = ':' := by decide
        have hba := isAsciiAlpha_backslashToSlash_eq_false c1 hna
        have hbl := isAsciiLower_backslashToSlash_eq_false c1 hnl
        unfold xoscmounts
        rw [subDriveColon_not_alpha c1 rest hna, subLeadingLower_not_lower _ _ hnl]
        simp only [subBackslashes, List.map_cons, hbc]
        exact ⟨subDriveColon_not_alpha _ _ hba, subLeadingLower_not_lower _ _ hbl⟩
    · unfold xoscmounts
      rw [subDriveColon_of_ne_colon c1 c2 rest hc2]
      by_cases h : isAsciiLower c1 = true
      · have hne := ne_backslash_of_isAsciiLower c1 h
        rw [subLeadingLower_lower _ _ h]
        simp only [subBackslashes, List.map_cons, backslashToSlash_eq_self c1 hne]
        exact ⟨rfl, rfl⟩
      · have hnl : isAsciiLower c1 = false := Bool.of_not_eq_true h
        have hbl := isAsciiLower_backslashToSlash_eq_false c1 hnl
        rw [subLeadingLower_not_lower _ _ hnl]
        simp only [subBackslashes, List.map_cons]
        exact ⟨subDriveColon_of_ne_colon _ _ _ (backslashToSlash_ne_colon c2 hc2),
          subLeadingLower_not_lower _ _ hbl⟩

theorem xoscmounts_fixpoint (l : List Char) :
    xoscmounts (xoscmounts l) = xoscmounts l := by
  obtain ⟨h1, h2⟩ := xoscmounts_fixes l
  show subBackslashes (subLeadingLower (subDriveColon (xoscmounts l))) = xoscmounts l
  rw [h1, h2]
  show subBackslashes (subBackslashes (subLeadingLower (subDriveColon l))) = _
  rw [subBackslashes_idem]
  rfl

/-! ## Data model

`Player` mirrors `scbw.player`: `HumanPlayer` and `BotPlayer` (the latter
carries `bot_dir`, `bot_basefilename`, `bwapi_version`, `meta.javaDebugPort`,
`write_dir`, `read_dir`).  Only the fields `docker_utils.py` reads are
modelled; `race` stands for the Python `player.race.value` string. -/

inductive Player
  | human (name : String) (race : String)
  | bot (name : String) (race : String) (bot_dir : String) (bot_basefilename : String)
      (bwapi_version : String) (javaDebugPort : Option Nat)
      (write_dir : String) (read_dir : String)
  deriving DecidableEq

def Player.name : Player → String
  | .human n _ => n
  | .bot n _ _ _ _ _ _ _ => n

def Player.race : Player → String
  | .human _ r => r
  | .bot _ r _ _ _ _ _ _ => r

/-- The keyword arguments `launch_game` forwards to `launch_image` via
`**launch_params` (lines 200-228), plus the keys `launch_game` reads itself.
`game_type` stands for the Python `game_type.value` string. -/
structure LaunchParams where
  headless : Bool
  game_name : String
  map_name : String
  game_type : String
  game_speed : Int
  timeout : Option Int
  hide_names : Bool
  drop_players : Bool
  log_dir : String
  bot_dir : String
  map_dir : String
  bwapi_data_bwta_dir : String
  bwapi_data_bwta2_dir : String
  vnc_base_port : Nat
  vnc_host : String
  docker_image : String
  docker_opts : List String
  deriving DecidableEq

/-- The exceptions `docker_utils.py` raises, distinguished by raise site:
`gameEmptyPlayers` is the `GameException` of line 374, `dockerLaunchFailure`
the `DockerException` of line 337, `dockerPremature` the `DockerException`
of line 392, `containerLingering` the `ContainerException` of line 420,
`realtimeOuted` the `RealtimeOutedException` of line 435 and `containerExit`
the `ContainerException` of line 437. -/
inductive GameError
  | gameEmptyPlayers
  | dockerLaunchFailure
  | dockerPremature
  | containerLingering
  | realtimeOuted
  | containerExit
  deriving DecidableEq

/-- The externally visible side effects of a run, in program order:
file removal (line 383), `os.makedirs` (line 260), the `docker run` call
(line 327), the post-start `docker ps` lookup (lines 330-332), `time.sleep(1)`
(line 389), a `running_containers` query with its name filter (lines 342-347),
launching a vnc viewer (line 399), `docker inspect` of an exit code
(lines 360-363), `docker stop` (line 352), `docker rm` (line 357) and
`distutils.dir_util.copy_tree` (lines 444-445). -/
inductive Act
  | removeFile (file : String)
  | makedirs (dir : String)
  | dockerRun (cmd : List String)
  | psQuery (name : String)
  | sleepSettle
  | runningQuery (nameFilter : String)
  | vnc (host : String) (port : Nat)
  | inspect (containerName : String)
  | dockerStop (containers : List String)
  | dockerRm (containers : List String)
  | copyTree (src : String) (dst : String)
  deriving DecidableEq

/-! ## OutcomeClassifier (lines 434-437)

The two membership tests the code runs over the resolved exit codes, in
order: any code equal to `EXIT_CODE_REALTIME_OUTED` raises
`RealtimeOutedException`; otherwise any code equal to `1` raises
`ContainerException`; otherwise the match is reported successful. -/

inductive MatchOutcome
  | success
  | realtimeTimedOut
  | unitError
  deriving DecidableEq

def classifyExitCodes (exit_codes : List Int) : MatchOutcome :=
  if exit_codes.any (fun c => c == EXIT_CODE_REALTIME_OUTED) then .realtimeTimedOut
  else if exit_codes.any (fun c => c == 1) then .unitError
  else .success

/-! ## UnitSpecBuilder and UnitLauncher: `launch_image` (lines 200-339) -/

/-- Line 231: `f"{game_name}_{nth_player}_{player.name.replace(' ', '_')}"`. -/
def container_name (p : Player) (nth_player : Nat) (game_name : String) : String :=
  game_name ++ "_" ++ toString nth_player ++ "_" ++ p.name.replace " " "_"

/-- The environment dictionary of lines 267-296 in its Python insertion
order.  `JAVA_DEBUG` is inserted with value `"0"` at line 286 and only
updated in place at line 292, so its position is fixed; `BOT_FILE`,
`BOT_BWAPI` (lines 289-290), `JAVA_DEBUG_PORT` (line 293) and `PLAY_TIMEOUT`
(line 296) are appended after it, in that order. -/
def launch_env (p : Player) (nth_player num_players : Nat) (lp : LaunchParams) :
    List (String × String) :=
  [("PLAYER_NAME", p.name),
   ("PLAYER_RACE", p.race),
   ("NTH_PLAYER", toString nth_player),
   ("NUM_PLAYERS", toString num_players),
   ("GAME_NAME", lp.game_name),
   ("MAP_NAME", "/app/sc/maps/" ++ lp.map_name),
   ("GAME_TYPE", lp.game_type),
   ("SPEED_OVERRIDE", toString lp.game_speed),
   ("HIDE_NAMES", if lp.hide_names then "1" else "0"),
   ("DROP_PLAYERS", if lp.drop_players then "1" else "0"),
   ("TM_LOG_RESULTS", "../logs/" ++ lp.game_name ++ "_" ++ toString nth_player ++ "_results.json"),
   ("TM_LOG_FRAMETIMES", "../logs/" ++ lp.game_name ++ "_" ++ toString nth_player ++ "_frames.csv"),
   ("TM_SPEED_OVERRIDE", toString lp.game_speed),
   ("TM_ALLOW_USER_INPUT", match p with | .human _ _ => "1" | .bot _ _ _ _ _ _ _ _ => "0"),
   ("EXIT_CODE_REALTIME_OUTED", toString EXIT_CODE_REALTIME_OUTED),
   ("JAVA_DEBUG", match p with
     | .bot _ _ _ _ _ (some _) _ _ => "1"
     | _ => "0")]
  ++ (match p with
      | .bot _ _ _ basefile bwapi jd _ _ =>
          [("BOT_FILE", basefile), ("BOT_BWAPI", bwapi)]
          ++ (match jd with
              | some port => [("JAVA_DEBUG_PORT", toString port)]
              | none => [])
      | .human _ _ => [])
  ++ (match lp.timeout with
      | some t => [("PLAY_TIMEOUT", toString t)]
      | none => [])

/-- The `cmd` list of `launch_image` (lines 233-324), assembled in the exact
order of the Python `cmd += ...` statements. -/
def launch_image_cmd (p : Player) (nth_player num_players : Nat) (lp : LaunchParams) :
    List String :=
  let cmd := ["docker", "run", "-d", "--privileged",
    "--name", container_name p nth_player lp.game_name,
    "--volume", xoscmountsStr lp.log_dir ++ ":" ++ LOG_DIR ++ ":rw",
    "--volume", xoscmountsStr lp.map_dir ++ ":" ++ MAP_DIR ++ ":rw",
    "--volume", xoscmountsStr lp.bwapi_data_bwta_dir ++ ":" ++ BWAPI_DATA_BWTA_DIR ++ ":rw",
    "--volume", xoscmountsStr lp.bwapi_data_bwta2_dir ++ ":" ++ BWAPI_DATA_BWTA2_DIR ++ ":rw"]
  -- line 246-247: `if docker_opts: cmd += docker_opts`
  let cmd := if lp.docker_opts ≠ [] then cmd ++ lp.docker_opts else cmd
  -- lines 249-251: allow for --net override in docker opts
  let cmd := if lp.docker_opts.contains "--net" = false then
      cmd ++ ["--net", DOCKER_STARCRAFT_NETWORK]
    else cmd
  -- lines 253-254
  let cmd := if lp.headless = false then
      cmd ++ ["-p", toString (lp.vnc_base_port + nth_player) ++ ":5900"]
    else cmd
  -- lines 256-265
  let cmd := match p with
    | .bot _ _ bdir _ _ jd _ _ =>
        let bot_data_write_dir := bdir ++ "/write/" ++ lp.game_name ++ "_" ++ toString nth_player
        let cmd := cmd ++ ["--volume",
          xoscmountsStr bot_data_write_dir ++ ":" ++ BOT_DATA_WRITE_DIR ++ ":rw"]
        let cmd := cmd ++ ["--volume", xoscmountsStr bdir ++ ":" ++ BOT_DIR ++ ":ro"]
        (match jd with
         | some port => cmd ++ ["-p", toString port ++ ":" ++ toString port]
         | none => cmd)
    | .human _ _ => cmd
  -- lines 298-299
  let cmd := cmd ++ (launch_env p nth_player num_players lp).flatMap
    (fun kv => ["-e", kv.1 ++ "=" ++ kv.2])
  -- line 301
  let cmd := cmd ++ [lp.docker_image]
  -- lines 302-305
  let cmd := cmd ++ [match p with
    | .bot _ _ _ _ _ _ _ _ => "/app/play_bot.sh"
    | .human _ _ => "/app/play_human.sh"]
  -- lines 307-324
  let entrypoint_opts := if lp.headless = false then ["--headful"]
    else ["--game", lp.game_name, "--name", p.name, "--race", p.race, "--lan"]
      ++ (if nth_player = 0 then ["--host", "--map", "/app/sc/maps/" ++ lp.map_name]
          else ["--join"])
  cmd ++ entrypoint_opts

/-- `launch_image` (lines 326-339), given the completion status of the
`subprocess.call` (line 327) and the trimmed output of the name-filtered
`docker ps` lookup (lines 330-332).  The lookup output (`container_id`) is
only logged at lines 333-335 — the Python never inspects it — so it does
not influence the result.  For a `BotPlayer` the `os.makedirs` of line 260
runs while the command list is being built, before the `docker run` call.
The returned trace lists the side effects in program order. -/
def launch_image (call_status : Int) (ps_output : String) (p : Player)
    (nth_player num_players : Nat) (lp : LaunchParams) :
    Except GameError Unit × List Act :=
  let mkdirActs : List Act := match p with
    | .bot _ _ bdir _ _ _ _ _ =>
        [Act.makedirs (bdir ++ "/write/" ++ lp.game_name ++ "_" ++ toString nth_player)]
    | .human _ _ => []
  let runAct := Act.dockerRun (launch_image_cmd p nth_player num_players lp)
  if call_status = 0 then
    (Except.ok (), mkdirActs ++ [runAct, Act.psQuery (container_name p nth_player lp.game_name)])
  else
    (Except.error GameError.dockerLaunchFailure, mkdirActs ++ [runAct])

/-! ## CleanupCoordinator: `stop_containers` / `cleanup_containers`
(lines 350-357)

Both guard on `if len(containers):` and then issue a single
`subprocess.call`, whose return status is discarded by the Python code —
`subprocess.call` reports failure through that status rather than by
raising — so a failing `docker stop`/`docker rm` cannot influence the
caller.  The discarded status is the `call_status` argument. -/

def stop_containers (call_status : Int) (containers : List String) : List Act :=
  if containers.length ≠ 0 then [Act.dockerStop containers] else []

def cleanup_containers (call_status : Int) (containers : List String) : List Act :=
  if containers.length ≠ 0 then [Act.dockerRm containers] else []

/-! ## MatchMonitor: the tail of `launch_game` (lines 388-445) -/

/-- The external world a `launch_game` run observes: the pre-existing files
found by the `find_*` chain (lines 377-380), the per-player completion
status of `docker run` (line 327) and `docker ps` output (lines 330-332),
the `running_containers` result right after the settle sleep (line 390),
the per-iteration `running_containers` results of the poll loop (line 409),
the `time.time()` clock as sampled at loop entry (line 407, `t0`) and inside
iteration `i` (lines 415-416, `tm i`), the `docker inspect` exit code per
container name (line 428), and the discarded status of the `docker rm` call
(line 432). -/
structure GameEnv where
  existingFiles : List String
  runStatus : Nat → Int
  psLookup : String → String
  settle : List String
  polls : Nat → List String
  tm : Nat → Nat
  t0 : Nat
  exitCode : String → Int
  rmStatus : Int

/-- The poll loop of lines 408-426.  Iteration `i` observes `polls i`; an
empty set breaks out of the loop returning the `containers` variable (which
at that point holds the empty observation); otherwise `running_time` is
refreshed whenever ≥2 containers are seen (line 415), and a single container
outliving `running_time` by more than `MAX_TIME_RUNNING_SINGLE_CONTAINER`
raises the lingering `ContainerException` (lines 416-423).  `fuel` bounds
the number of iterations we unroll; `none` means the loop was still running
after `fuel` iterations.  The trace records one `running_containers` query
per executed iteration. -/
def launch_game_loop (polls : Nat → List String) (tm : Nat → Nat) (game_name : String) :
    Nat → Nat → Nat → Option (Except GameError (List String) × List Act)
  | 0, _, _ => none
  | fuel + 1, i, running_time =>
    let containers := polls i
    if containers.length = 0 then
      some (Except.ok containers, [Act.runningQuery game_name])
    else
      let running_time := if 2 ≤ containers.length then tm i else running_time
      if containers.length = 1 ∧
          MAX_TIME_RUNNING_SINGLE_CONTAINER < tm i - running_time then
        some (Except.error GameError.containerLingering, [Act.runningQuery game_name])
      else
        match launch_game_loop polls tm game_name fuel (i + 1) running_time with
        | none => none
        | some (r, tr) => some (r, Act.runningQuery game_name :: tr)

/-- Lines 388-445 of `launch_game`: everything after the N `launch_image`
calls.  Sleep one second, query the running containers (`start_containers`),
fail with the premature-exit `DockerException` if their number differs from
the number of players; otherwise (headful games only) launch the vnc
viewers, run the poll loop, resolve exit codes of the loop's final
`containers` value (line 428), remove `start_containers` (line 432), apply
the exit-code classification (lines 434-437) and finally, on success with
`read_overwrite`, copy each bot's write directory onto its read directory
(lines 439-445). -/
def launch_game_monitor (env : GameEnv) (players : List Player) (lp : LaunchParams)
    (show_all read_overwrite : Bool) (fuel : Nat) :
    Option (Except GameError Unit × List Act) :=
  let start_containers := env.settle
  let pre : List Act := [Act.sleepSettle, Act.runningQuery lp.game_name]
  if start_containers.length ≠ players.length then
    some (Except.error GameError.dockerPremature, pre)
  else
    let vncActs : List Act :=
      if lp.headless = false then
        ((if show_all then players else players.take 1).enum).map
          (fun ip => Act.vnc lp.vnc_host (lp.vnc_base_port + ip.1))
      else []
    match launch_game_loop env.polls env.tm lp.game_name fuel 0 env.t0 with
    | none => none
    | some (Except.error e, loopTr) => some (Except.error e, pre ++ vncActs ++ loopTr)
    | some (Except.ok containers, loopTr) =>
      let exit_codes := containers.map env.exitCode
      let inspectActs := containers.map Act.inspect
      let rmActs := cleanup_containers env.rmStatus start_containers
      let base := pre ++ vncActs ++ loopTr ++ inspectActs ++ rmActs
      match classifyExitCodes exit_codes with
      | .realtimeTimedOut => some (Except.error GameError.realtimeOuted, base)
      | .unitError => some (Except.error GameError.containerExit, base)
      | .success =>
        let copyActs := if read_overwrite then
            players.enum.filterMap (fun ip => match ip.2 with
              | .bot _ _ _ _ _ _ wdir rdir =>
                  some (Act.copyTree (wdir ++ "/" ++ lp.game_name ++ "_" ++ toString ip.1) rdir)
              | .human _ _ => none)
          else []
        some (Except.ok (), base ++ copyActs)

/-- The sequential `launch_image` calls of lines 385-386.  A raised
`DockerException` aborts the iteration: players after the failing one are
not launched. -/
def launch_all (env : GameEnv) (lp : LaunchParams) (num_players : Nat) :
    List Player → Nat → Except GameError Unit × List Act
  | [], _ => (Except.ok (), [])
  | p :: rest, nth_player =>
    match launch_image (env.runStatus nth_player)
        (env.psLookup (container_name p nth_player lp.game_name)) p nth_player num_players lp with
    | (Except.ok _, tr) =>
      let next := launch_all env lp num_players rest (nth_player + 1)
      (next.1, tr ++ next.2)
    | (Except.error e, tr) => (Except.error e, tr)

/-- `launch_game` (lines 366-445): reject an empty player list (line 374),
remove pre-existing artifact files (lines 377-383), launch one container
per player (lines 385-386), then hand over to the monitor phase. -/
def launch_game (env : GameEnv) (players : List Player) (lp : LaunchParams)
    (show_all read_overwrite : Bool) (fuel : Nat) :
    Option (Except GameError Unit × List Act) :=
  if players.length = 0 then
    some (Except.error GameError.gameEmptyPlayers, [])
  else
    let rmFiles := env.existingFiles.map Act.removeFile
    match launch_all env lp players.length players 0 with
    | (Except.error e, tr) => some (Except.error e, rmFiles ++ tr)
    | (Except.ok _, tr) =>
      match launch_game_monitor env players lp show_all read_overwrite fuel with
      | none => none
      | some (r, mtr) => some (r, rmFiles ++ tr ++ mtr)

/-- The fixed part of the `docker run` command line assembled before the
caller-supplied `docker_opts` (lines 233-244): flags, container name and
the four always-present volume mounts. -/
def launch_cmd_head (p : Player) (nth_player : Nat) (lp : LaunchParams) : List String :=
  ["docker", "run", "-d", "--privileged",
   "--name", container_name p nth_player lp.game_name,
   "--volume", xoscmountsStr lp.log_dir ++ ":" ++ LOG_DIR ++ ":rw",
   "--volume", xoscmountsStr lp.map_dir ++ ":" ++ MAP_DIR ++ ":rw",
   "--volume", xoscmountsStr lp.bwapi_data_bwta_dir ++ ":" ++ BWAPI_DATA_BWTA_DIR ++ ":rw",
   "--volume", xoscmountsStr lp.bwapi_data_bwta2_dir ++ ":" ++ BWAPI_DATA_BWTA2_DIR ++ ":rw"]

/-- Everything `launch_image` appends to the command line after the network
option (lines 253-324): the vnc port mapping, bot mounts and debug port,
environment flags, image, entry script and entrypoint options. -/
def launch_cmd_tail (p : Player) (nth_player num_players : Nat) (lp : LaunchParams) :
    List String :=
  (if lp.headless = false then
      ["-p", toString (lp.vnc_base_port + nth_player) ++ ":5900"]
    else [])
  ++ (match p with
      | .bot _ _ bdir _ _ jd _ _ =>
          ["--volume",
           xoscmountsStr (bdir ++ "/write/" ++ lp.game_name ++ "_" ++ toString nth_player)
             ++ ":" ++ BOT_DATA_WRITE_DIR ++ ":rw",
           "--volume", xoscmountsStr bdir ++ ":" ++ BOT_DIR ++ ":ro"]
          ++ (match jd with
              | some port => ["-p", toString port ++ ":" ++ toString port]
              | none => [])
      | .human _ _ => [])
  ++ (launch_env p nth_player num_players lp).flatMap
    (fun kv => ["-e", kv.1 ++ "=" ++ kv.2])
  ++ [lp.docker_image]
  ++ [match p with
      | .bot _ _ _ _ _ _ _ _ => "/app/play_bot.sh"
      | .human _ _ => "/app/play_human.sh"]
  ++ (if lp.headless = false then ["--headful"]
      else ["--game", lp.game_name, "--name", p.name, "--race", p.race, "--lan"]
        ++ (if nth_player = 0 then ["--host", "--map", "/app/sc/maps/" ++ lp.map_name]
            else ["--join"]))

/-- Claim C9: the caller-supplied `docker_opts` sit verbatim between the
fixed head of the command line and the computed network option, and the
computed `--net sc_net` pair is added exactly when `docker_opts` does not
already contain `"--net"`. -/
theorem launch_image_cmd_decomposition (p : Player) (nth_player num_players : Nat)
    (lp : LaunchParams) :
    launch_image_cmd p nth_player num_players lp =
      launch_cmd_head p nth_player lp ++ lp.docker_opts
        ++ (if lp.docker_opts.contains "--net" then []
            else ["--net", DOCKER_STARCRAFT_NETWORK])
        ++ launch_cmd_tail p nth_player num_players lp := by
  unfold launch_image_cmd launch_cmd_head launch_cmd_tail
  rcases hnet : lp.docker_opts.contains "--net" <;>
    rcases hopts : lp.docker_opts with _ | ⟨o, os⟩ <;>
    rcases hh : lp.headless <;>
    rcases p with ⟨n, r⟩ | ⟨n, r, bdir, bf, bw, _ | port, wd, rd⟩ <;>
    simp [hnet, List.append_assoc]

/-! ## Test fixtures used by the concrete theorems -/

def lpTest : LaunchParams :=
  { headless := true, game_name := "g", map_name := "map.scx",
    game_type := "FREE_FOR_ALL", game_speed := 0, timeout := none,
    hide_names := false, drop_players := false, log_dir := "/logs",
    bot_dir := "/bots", map_dir := "/maps", bwapi_data_bwta_dir := "/bwta",
    bwapi_data_bwta2_dir := "/bwta2", vnc_base_port := 5900,
    vnc_host := "localhost", docker_image := "starcraft:game",
    docker_opts := [] }

def pA : Player := Player.human "x" "T"

def pB : Player := Player.human "y" "Z"

/-! ## Claim theorems -/

/-- Claim C5: mount-path normalization applies the three rules in the
source's order — drive-designator lower-casing, `//`-prefixing of a leading
lower-case letter, then backslash conversion — and on the input
`C:\Users\x` it produces exactly `//c/Users/x`, a path beginning with
`//c/Users/x`. -/
theorem xoscmounts_rules_and_example :
    (∀ s : List Char, xoscmounts s = subBackslashes (subLeadingLower (subDriveColon s))) ∧
    xoscmountsStr "C:\\Users\\x" = "//c/Users/x" :=
  ⟨fun _ => rfl, by decide⟩

/-- Claim C6: mount-path normalization is idempotent — normalizing an
already-normalized path returns it unchanged, for every input path. -/
theorem xoscmounts_idempotent (p : String) :
    xoscmountsStr (xoscmountsStr p) = xoscmountsStr p := by
  unfold xoscmountsStr
  exact congrArg String.mk (xoscmounts_fixpoint p.data)

/-- Claim C4: over any exit-code sequence the classification of lines
434-437 yields the realtime-timeout outcome exactly when the sentinel `2`
occurs, the unit-error outcome exactly when `1` occurs without `2`, and
success exactly when neither occurs; in particular when both `2` and `1`
occur the realtime-timeout outcome wins. -/
theorem classifyExitCodes_spec (codes : List Int) :
    (classifyExitCodes codes = MatchOutcome.realtimeTimedOut ↔ (2 : Int) ∈ codes) ∧
    (classifyExitCodes codes = MatchOutcome.unitError ↔
      ((2 : Int) ∉ codes ∧ (1 : Int) ∈ codes)) ∧
    (classifyExitCodes codes = MatchOutcome.success ↔
      ((2 : Int) ∉ codes ∧ (1 : Int) ∉ codes)) ∧
    ((2 : Int) ∈ codes ∧ (1 : Int) ∈ codes →
      classifyExitCodes codes = MatchOutcome.realtimeTimedOut) := by
  unfold classifyExitCodes
  have h2 : (codes.any (fun c => c == EXIT_CODE_REALTIME_OUTED) = true) ↔ (2 : Int) ∈ codes := by
    simp [EXIT_CODE_REALTIME_OUTED, List.any_eq_true]
  have h1 : (codes.any (fun c => c == (1 : Int)) = true) ↔ (1 : Int) ∈ codes := by
    simp [List.any_eq_true]
  by_cases hm2 : (2 : Int) ∈ codes
  · rw [if_pos (h2.mpr hm2)]
    exact ⟨⟨fun _ => hm2, fun _ => rfl⟩,
      ⟨fun h => absurd h (by decide), fun h => absurd hm2 h.1⟩,
      ⟨fun h => absurd h (by decide), fun h => absurd hm2 h.1⟩,
      fun _ => rfl⟩
  · have hn2 : codes.any (fun c => c == EXIT_CODE_REALTIME_OUTED) = false := by
      rcases hx : codes.any (fun c => c == EXIT_CODE_REALTIME_OUTED)
      · rfl
      · exact absurd (h2.mp hx) hm2
    rw [if_neg (bool_ne_true _ hn2)]
    by_cases hm1 : (1 : Int) ∈ codes
    · rw [if_pos (h1.mpr hm1)]
      exact ⟨⟨fun h => absurd h (by decide), fun h => absurd h hm2⟩,
        ⟨fun _ => ⟨hm2, hm1⟩, fun _ => rfl⟩,
        ⟨fun h => absurd h (by decide), fun h => absurd hm1 h.2⟩,
        fun h => absurd h.1 hm2⟩
    · have hn1 : codes.any (fun c => c == (1 : Int)) = false := by
        rcases hx : codes.any (fun c => c == (1 : Int))
        · rfl
        · exact absurd (h1.mp hx) hm1
      rw [if_neg (bool_ne_true _ hn1)]
      exact ⟨⟨fun h => absurd h (by decide), fun h => absurd h hm2⟩,
        ⟨fun h => absurd h (by decide), fun h => absurd h.2 hm1⟩,
        ⟨fun _ => ⟨hm2, hm1⟩, fun _ => rfl⟩,
        fun h => absurd h.1 hm2⟩

/-- Witness for C4 at a concrete input: with both the sentinel `2` and the
generic error code `1` present, classification yields the realtime-timeout
outcome. -/
theorem classifyExitCodes_spec_witness :
    classifyExitCodes [2, 1] = MatchOutcome.realtimeTimedOut :=
  (classifyExitCodes_spec [2, 1]).2.2.2 ⟨by decide, by decide⟩

/-- Claim C8: the cleanup operations called with an empty container set
issue no runtime call, and for every container set their behaviour is
independent of the status the underlying `subprocess.call` reports — a
cleanup failure cannot propagate past the cleanup boundary. -/
theorem cleanup_noop_on_empty_and_status_independent :
    (∀ st : Int, stop_containers st [] = [] ∧ cleanup_containers st [] = []) ∧
    (∀ st st' : Int, ∀ cs : List String,
      stop_containers st cs = stop_containers st' cs ∧
      cleanup_containers st cs = cleanup_containers st' cs) :=
  ⟨fun _ => ⟨rfl, rfl⟩, fun _ _ _ => ⟨rfl, rfl⟩⟩

/-- Claim C3, counterexample to the claim as stated: the create+start call
reports status `0` but the name-filtered `docker ps` lookup comes back
empty — the container cannot be found running under its name — and
`launch_image` still succeeds instead of failing with a launch error. -/
theorem launch_image_not_found_still_ok :
    (launch_image 0 "" pA 0 2 lpTest).1 = Except.ok () := rfl

/-- Claim C3 as amended: `launch_image` fails exactly when the create+start
call reports a nonzero completion status; the result of the subsequent
name-filtered lookup is never validated, so it cannot cause a failure. -/
theorem launch_image_error_iff_nonzero_status (call_status : Int) (ps_output : String)
    (p : Player) (nth_player num_players : Nat) (lp : LaunchParams) :
    (launch_image call_status ps_output p nth_player num_players lp).1 =
      (if call_status = 0 then Except.ok ()
       else Except.error GameError.dockerLaunchFailure) := by
  by_cases h : call_status = 0 <;> simp [launch_image, h]

/-! ## Poll-loop lemmas -/

/-- The only exception the poll loop itself can raise is the lingering
`ContainerException` of line 420. -/
theorem launch_game_loop_error_eq_lingering (polls : Nat → List String) (tm : Nat → Nat)
    (game_name : String) :
    ∀ fuel i running_time e tr,
      launch_game_loop polls tm game_name fuel i running_time =
        some (Except.error e, tr) →
      e = GameError.containerLingering := by
  intro fuel
  induction fuel with
  | zero =>
    intro i rt e tr h
    exact absurd h (by simp [launch_game_loop])
  | succ n ih =>
    intro i rt e tr h
    simp only [launch_game_loop] at h
    by_cases h0 : (polls i).length = 0
    · rw [if_pos h0] at h
      simp at h
    · rw [if_neg h0] at h
      generalize (if 2 ≤ (polls i).length then tm i else rt) = rt2 at h
      by_cases hling : (polls i).length = 1 ∧
          MAX_TIME_RUNNING_SINGLE_CONTAINER < tm i - rt2
      · rw [if_pos hling] at h
        simp only [Option.some.injEq, Prod.mk.injEq, Except.error.injEq] at h
        exact h.1.symm
      · rw [if_neg hling] at h
        rcases heq : launch_game_loop polls tm game_name n (i + 1) rt2 with _ | ⟨r, ltr⟩
        · rw [heq] at h
          simp at h
        · rw [heq] at h
          rcases r with e2 | cs
          · simp only [Option.some.injEq, Prod.mk.injEq, Except.error.injEq] at h
            obtain ⟨he, -⟩ := h
            subst he
            exact ih _ _ _ _ heq
          · simp at h

/-- When every observation up to iteration `K` contains exactly one
container and the clock at `K` exceeds `running_time` by more than the
threshold, the loop raises the lingering exception. -/
theorem launch_game_loop_lingering_of_single (polls : Nat → List String) (tm : Nat → Nat)
    (game_name : String) (K : Nat)
    (hone : ∀ j, j ≤ K → (polls j).length = 1) :
    ∀ fuel i running_time, i ≤ K →
      running_time + MAX_TIME_RUNNING_SINGLE_CONTAINER < tm K →
      K - i < fuel →
      ∃ tr, launch_game_loop polls tm game_name fuel i running_time =
        some (Except.error GameError.containerLingering, tr) := by
  intro fuel
  induction fuel with
  | zero =>
    intro i rt hi ht hf
    exact absurd hf (by omega)
  | succ n ih =>
    intro i rt hi ht hf
    have hlen := hone i hi
    simp only [launch_game_loop]
    rw [hlen]
    rw [if_neg (by decide : ¬ (1 : Nat) = 0)]
    rw [if_neg (by decide : ¬ (2 : Nat) ≤ 1)]
    by_cases hc : MAX_TIME_RUNNING_SINGLE_CONTAINER < tm i - rt
    · rw [if_pos ⟨rfl, hc⟩]
      exact ⟨_, rfl⟩
    · have hik : i ≠ K := by
        intro hik
        subst hik
        exact hc (by omega)
      rw [if_neg (fun hand => hc hand.2)]
      obtain ⟨tr, htr⟩ := ih (i + 1) rt (by omega) ht (by omega)
      rw [htr]
      exact ⟨_, rfl⟩

/-- Claim C7: after the settle sleep and the match-name-filtered query, the
monitor raises the premature-exit `DockerException` exactly when the number
of running containers differs from the number of players, and when it does,
the run stops right there — the trace holds only the sleep and the single
query, so no poll iteration, exit-code inspection, removal or bot-file copy
has happened. -/
theorem monitor_incomplete_launch_iff (env : GameEnv) (players : List Player)
    (lp : LaunchParams) (show_all read_overwrite : Bool) (fuel : Nat) :
    (env.settle.length ≠ players.length ↔
      ∃ tr, launch_game_monitor env players lp show_all read_overwrite fuel =
        some (Except.error GameError.dockerPremature, tr)) ∧
    (env.settle.length ≠ players.length →
      launch_game_monitor env players lp show_all read_overwrite fuel =
        some (Except.error GameError.dockerPremature,
          [Act.sleepSettle, Act.runningQuery lp.game_name])) := by
  have hpos : env.settle.length ≠ players.length →
      launch_game_monitor env players lp show_all read_overwrite fuel =
        some (Except.error GameError.dockerPremature,
          [Act.sleepSettle, Act.runningQuery lp.game_name]) := by
    intro h
    unfold launch_game_monitor
    rw [if_pos h]
  refine ⟨⟨fun h => ⟨_, hpos h⟩, ?_⟩, hpos⟩
  rintro ⟨tr, htr⟩
  by_contra hne
  unfold launch_game_monitor at htr
  rw [if_neg (by rw [hne]; exact fun hx => hx rfl)] at htr
  rcases hloop : launch_game_loop env.polls env.tm lp.game_name fuel 0 env.t0
    with _ | ⟨r, ltr⟩
  · rw [hloop] at htr
    simp at htr
  · rw [hloop] at htr
    rcases r with e | cs
    · have := launch_game_loop_error_eq_lingering env.polls env.tm lp.game_name
        fuel 0 env.t0 e ltr hloop
      subst this
      simp at htr
    · rcases hcl : classifyExitCodes (cs.map env.exitCode) <;>
        simp only [hcl] at htr <;> simp at htr

/-- Environment for the C7 witness: no container survives the settle
delay. -/
def envC7 : GameEnv :=
  { existingFiles := [], runStatus := fun _ => 0, psLookup := fun _ => "",
    settle := [], polls := fun _ => [], tm := fun _ => 0, t0 := 0,
    exitCode := fun _ => 0, rmStatus := 0 }

/-- Witness for C7 at a concrete input: with one player but an empty settle
query, the monitor stops with the premature-exit error after just the sleep
and the one query. -/
theorem monitor_incomplete_launch_iff_witness :
    launch_game_monitor envC7 [pA] lpTest false false 3 =
      some (Except.error GameError.dockerPremature,
        [Act.sleepSettle, Act.runningQuery "g"]) :=
  (monitor_incomplete_launch_iff envC7 [pA] lpTest false false 3).2 (by decide)

/-- Claim C10: the `running_time` reference point is initialized to the
loop-entry clock (line 407), not to the first observation of two or more
containers; hence in a match whose filtered running set always holds exactly
one container — no peer ever observed — a sole container still running once
the clock exceeds the entry time by more than the fixed 20-second threshold
makes the monitor raise the lingering `ContainerException`. -/
theorem monitor_lingering_without_peers (env : GameEnv) (players : List Player)
    (lp : LaunchParams) (show_all read_overwrite : Bool) (K fuel : Nat)
    (hsettle : env.settle.length = players.length)
    (hone : ∀ j, j ≤ K → (env.polls j).length = 1)
    (htime : env.t0 + MAX_TIME_RUNNING_SINGLE_CONTAINER < env.tm K)
    (hfuel : K < fuel) :
    ∃ tr, launch_game_monitor env players lp show_all read_overwrite fuel =
      some (Except.error GameError.containerLingering, tr) := by
  obtain ⟨tr, htr⟩ := launch_game_loop_lingering_of_single env.polls env.tm
    lp.game_name K hone fuel 0 env.t0 (Nat.zero_le K) htime (by omega)
  have hmon : launch_game_monitor env players lp show_all read_overwrite fuel =
      some (Except.error GameError.containerLingering,
        [Act.sleepSettle, Act.runningQuery lp.game_name]
          ++ (if lp.headless = false then
                ((if show_all then players else players.take 1).enum).map
                  (fun ip => Act.vnc lp.vnc_host (lp.vnc_base_port + ip.1))
              else [])
          ++ tr) := by
    unfold launch_game_monitor
    rw [if_neg (by rw [hsettle]; exact fun hx => hx rfl)]
    rw [htr]
  exact ⟨_, hmon⟩

/-- Environment for the C10 witness: a single-player match whose only
container keeps running while the clock is already 30 seconds past the
loop-entry time. -/
def envC10 : GameEnv :=
  { existingFiles := [], runStatus := fun _ => 0, psLookup := fun _ => "",
    settle := ["g_0_x"], polls := fun _ => ["g_0_x"], tm := fun _ => 30,
    t0 := 0, exitCode := fun _ => 0, rmStatus := 0 }

/-- Witness for C10 at a concrete input: one player, one container observed
at every poll, clock 30 at iteration 0 versus entry time 0 — the monitor
raises the lingering exception even though no second container was ever
observed. -/
theorem monitor_lingering_without_peers_witness :
    ∃ tr, launch_game_monitor envC10 [pA] lpTest false false 1 =
      some (Except.error GameError.containerLingering, tr) :=
  monitor_lingering_without_peers envC10 [pA] lpTest false false 0 1
    (by decide) (fun j _ => rfl) (by decide) (by decide)

/-- Environment for C1: two containers are observed at poll 0, none at
poll 1; both containers finished with the realtime-timeout sentinel exit
code `2`. -/
def envC1 : GameEnv :=
  { existingFiles := [], runStatus := fun _ => 0, psLookup := fun _ => "id",
    settle := ["g_0_x", "g_1_y"],
    polls := fun n => if n = 0 then ["g_0_x", "g_1_y"] else [],
    tm := fun _ => 5, t0 := 0,
    exitCode := fun _ => 2, rmStatus := 0 }

/-- Claim C1, evaluated at the failing input: the match finishes normally
(poll 0 sees the two containers, poll 1 sees none), both members of the
last non-empty observed set exited with the sentinel code `2` — whose
classification is the realtime-timeout outcome — yet the run succeeds and
its trace contains no `docker inspect` at all: the exit codes the code
resolves at line 428 are those of the final empty poll, not those of the
last non-empty observed set. -/
theorem monitor_ignores_last_nonempty_set :
    launch_game_monitor envC1 [pA, pB] lpTest false false 2 =
      some (Except.ok (), [Act.sleepSettle, Act.runningQuery "g", Act.runningQuery "g",
        Act.runningQuery "g", Act.dockerRm ["g_0_x", "g_1_y"]]) ∧
    envC1.polls 0 = ["g_0_x", "g_1_y"] ∧
    envC1.exitCode "g_0_x" = 2 ∧ envC1.exitCode "g_1_y" = 2 ∧
    classifyExitCodes [envC1.exitCode "g_0_x", envC1.exitCode "g_1_y"] =
      MatchOutcome.realtimeTimedOut :=
  ⟨rfl, rfl, rfl, rfl, rfl⟩

/-- Environment for C2: poll 0 sees both containers at time 10, every later
poll sees only `g_0_x`, and at poll 1 the clock reads 31 — more than 20
seconds past the last multi-container observation. -/
def envC2 : GameEnv :=
  { existingFiles := [], runStatus := fun _ => 0, psLookup := fun _ => "id",
    settle := ["g_0_x", "g_1_y"],
    polls := fun n => if n = 0 then ["g_0_x", "g_1_y"] else ["g_0_x"],
    tm := fun n => if n = 0 then 10 else 31, t0 := 0,
    exitCode := fun _ => 0, rmStatus := 0 }

/-- Claim C2, evaluated at the failing input: when the lingering condition
triggers, the `ContainerException` of line 420 propagates straight out of
the poll loop — the resulting trace ends with the third
`running_containers` query and holds no `docker inspect` and no `docker rm`,
so neither exit-code inspection nor removal of the terminal set happens
before the error reaches the caller. -/
theorem monitor_lingering_no_cleanup_before_raise :
    launch_game_monitor envC2 [pA, pB] lpTest false true 5 =
      some (Except.error GameError.containerLingering,
        [Act.sleepSettle, Act.runningQuery "g", Act.runningQuery "g",
         Act.runningQuery "g"]) ∧
    envC2.settle = ["g_0_x", "g_1_y"] :=
  ⟨rfl, rfl⟩
